import Mathlib

/-!
Verification of the record normalization and serialization pipeline of
`clean_data/pre_process_spark.py`.

The embedding models, faithfully to the source:
- the per-field sanitization performed inside `mapRow` (three successive
  `str.replace` calls turning newline, tab and comma into a space);
- `mapRow` itself: comments joined with spaces, the caption-shape
  disambiguation (two independent `if hasattr` statements, the second
  overriding the first), tag joining, id extraction from `urls[0]`,
  with Python runtime errors (UnboundLocalError on an unassigned
  `textCaptions`, IndexError on `urls[0]` of an empty list) modelled as
  `Except` errors;
- the `format` function (column mode and document mode for csv, tsv, json);
  a pyspark `Row` built from keyword arguments sorts its fields
  alphabetically, so iterating a canonical row yields the values in the
  order caption, comments, id, tags, which matters in the json document
  branch;
- `select`'s alias resolution (`filter(...)[0]`, IndexError when no alias
  of a logical column is present);
- `main`'s per-user loop: Python 2 `map` is eager and sequential, so an
  uncaught per-user exception aborts the whole run after the users already
  processed have written their files.
-/

/-- True on the three characters the source strips from text fields:
newline, tab and comma. -/
def badChar (c : Char) : Bool := c == '\n' || c == '\t' || c == ','

/-- One `str.replace(old, new)` call of the source, for a one-character
pattern and a one-character replacement. -/
def replaceAll (s : String) (old rep : Char) : String :=
  ⟨s.data.map (fun c => if c == old then rep else c)⟩

/-- The sanitization the source applies to every text field in `mapRow`:
`.replace("\n", " ").replace("\t", " ").replace(",", " ")`. -/
def sanitize (s : String) : String :=
  replaceAll (replaceAll (replaceAll s '\n' ' ') '\t' ' ') ',' ' '

/-- Pointwise effect of the three replace passes on one character. -/
def sanitizeChar (c : Char) : Char := if badChar c then ' ' else c

/-- Modelled from the spec's words, for comparison only: a sanitizer that
deletes every newline, tab and comma instead of replacing them. -/
def sanitizeSpecDelete (s : String) : String :=
  ⟨s.data.filter (fun c => !badChar c)⟩

structure Comment where
  text : String
  deriving DecidableEq, Repr

structure CommentsRow where
  data : List Comment
  deriving DecidableEq, Repr

structure CaptionNode where
  text : String
  deriving DecidableEq, Repr

structure CaptionEdge where
  node : CaptionNode
  deriving DecidableEq, Repr

/-- The caption value of a raw post. `hasattr(captionRow, "edges")` is
modelled as `edges.isSome`, `hasattr(captionRow, "text")` as
`text.isSome`; a post may expose either shape, both, or neither. -/
structure CaptionRow where
  edges : Option (List CaptionEdge)
  text : Option String
  deriving DecidableEq, Repr

/-- One raw post after `select` renamed the columns. -/
structure RawRow where
  comments : CommentsRow
  caption : CaptionRow
  tags : Option (List String)
  urls : List String
  deriving DecidableEq, Repr

/-- The canonical record `mapRow` returns, i.e. the pyspark `Row` built as
`Row(comments=..., caption=..., tags=..., id=...)`. -/
structure CanonicalRecord where
  comments : String
  caption : String
  tags : String
  id : String
  deriving DecidableEq, Repr

/-- A pyspark `Row` constructed from keyword arguments sorts its field
names alphabetically, so iterating a canonical row yields the values in
the order caption, comments, id, tags. -/
def CanonicalRecord.fieldValuesSorted (r : CanonicalRecord) : List String :=
  [r.caption, r.comments, r.id, r.tags]

/-- Python runtime errors the pipeline can raise, by the statement that
raises them. -/
inductive PipelineError where
  /-- IndexError from `filter(lambda c: c in df.columns, aliases)[0]` in
  `select` when no alias of a logical column is present. -/
  | schemaIndexError
  /-- UnboundLocalError reading `textCaptions` in `mapRow` when the
  caption value exposes neither the edges shape nor the text shape, so
  neither `if hasattr` branch assigned it. -/
  | captionUnboundLocal
  /-- IndexError from `row.urls[0]` in `mapRow` on an empty urls list. -/
  | urlsIndexError
  /-- The `format` function falls off the end (returns None) on a format
  tag outside csv, tsv, json. -/
  | badFormat
  deriving DecidableEq, Repr

/-- The caption extraction of `mapRow`: two independent `if hasattr`
statements, so an assignment from the text shape overwrites one from the
edges shape; `none` means `textCaptions` was never assigned. -/
def resolveCaption (cap : CaptionRow) : Option String :=
  let afterEdges : Option String :=
    match cap.edges with
    | some edges => some (" ".intercalate (edges.map (fun e => e.node.text)))
    | none => none
  match cap.text with
  | some t => some t
  | none => afterEdges

/-- The comments extraction of `mapRow`:
`" ".join([x.text for x in comments])`. -/
def joinComments (row : RawRow) : String :=
  " ".intercalate (row.comments.data.map (fun c => c.text))

/-- The tags extraction of `mapRow`: join with spaces when the tags list
is not null, else the empty string. -/
def joinTags (t : Option (List String)) : String :=
  match t with
  | some ts => " ".intercalate ts
  | none => ""

/-- The source's `mapRow`: join comment texts with spaces, disambiguate
the caption shape, join tags (empty string when tags is null), sanitize
the three text fields, take `urls[0]` as id. The UnboundLocalError on a
caption of neither shape fires at the first `textCaptions.replace` line,
before `urls[0]` is evaluated. -/
def mapRow (row : RawRow) : Except PipelineError CanonicalRecord :=
  let textComments := joinComments row
  match resolveCaption row.caption with
  | none => .error .captionUnboundLocal
  | some textCaptions =>
    let tags := joinTags row.tags
    match row.urls with
    | [] => .error .urlsIndexError
    | u :: _ =>
      .ok { comments := sanitize textComments
          , caption := sanitize textCaptions
          , tags := sanitize tags
          , id := u }

/-- One serialized unit of output: a text line for the delimited formats,
or the row handed to the engine's JSON serializer. -/
inductive FormattedUnit where
  | line (s : String)
  /-- Document-mode json: the `Row(doc=..., text=...)` built in
  `mapDocFormat`, serialized by `toDF().toJSON()`. -/
  | jsonDoc (doc : String) (text : String)
  /-- Column-mode json: one record of `df.toJSON()`, with the dataframe's
  alphabetical column order caption, comments, id, tags. -/
  | jsonRecord (caption : String) (comments : String) (id : String) (tags : String)
  deriving DecidableEq, Repr

/-- The inner `mapDocFormat` of the source's `format` function (document
mode): csv and tsv emit the id, the separator, then comments, caption and
tags joined with single spaces; json builds a row whose `text` is the
concatenation of the row's values iterated in pyspark's alphabetical
field order. An unrecognized tag falls off the end (None). -/
def mapDocFormat (fmt : String) (row : CanonicalRecord) : Option FormattedUnit :=
  if fmt = "csv" then
    some (.line (row.id ++ "," ++ " ".intercalate [row.comments, row.caption, row.tags]))
  else if fmt = "tsv" then
    some (.line (row.id ++ "\t" ++ " ".intercalate [row.comments, row.caption, row.tags]))
  else if fmt = "json" then
    some (.jsonDoc row.id (String.join row.fieldValuesSorted))
  else
    none

/-- The source's `format` function, per record: document mode delegates to
`mapDocFormat`; column mode joins id, comments, caption, tags with the
format's separator, or hands the record to `df.toJSON()`. An unrecognized
tag falls off the end (None). -/
def formatRecord (fmt : String) (documentformat : Bool) (row : CanonicalRecord) :
    Option FormattedUnit :=
  if documentformat then
    mapDocFormat fmt row
  else if fmt = "csv" then
    some (.line (",".intercalate [row.id, row.comments, row.caption, row.tags]))
  else if fmt = "tsv" then
    some (.line ("\t".intercalate [row.id, row.comments, row.caption, row.tags]))
  else if fmt = "json" then
    some (.jsonRecord row.caption row.comments row.id row.tags)
  else
    none

def commentsCols : List String := ["comments"]
def captionCols : List String := ["edge_media_to_caption", "caption"]
def tagsCols : List String := ["tags"]

/-- The source's `select`: for each logical column, take the first alias
present among the dataframe's columns; `filter(...)[0]` raises IndexError
when no alias matches. -/
def select (columns : List String) : Except PipelineError (String × String × String) :=
  match (commentsCols.filter (fun a => columns.contains a)).head?,
        (captionCols.filter (fun a => columns.contains a)).head?,
        (tagsCols.filter (fun a => columns.contains a)).head? with
  | some c, some p, some t => .ok (c, p, t)
  | _, _, _ => .error .schemaIndexError

/-- One user's input: the name, the columns of the raw dataframe, and the
posts (already under canonical column names for the rows' shape). -/
structure UserData where
  name : String
  columns : List String
  posts : List RawRow
  deriving DecidableEq, Repr

/-- The source's `parseUser` for one user: resolve the schema, normalize
every post, format every record. Any raised error aborts the user's run
before the output file is written. -/
def parseUserRun (fmt : String) (dm : Bool) (u : UserData) :
    Except PipelineError (List FormattedUnit) := do
  let _ ← select u.columns
  let recs ← u.posts.mapM mapRow
  recs.mapM (fun r =>
    match formatRecord fmt dm r with
    | some x => Except.ok x
    | none => Except.error PipelineError.badFormat)

/-- The source's `main` loop over users: Python 2 `map` applies
`parseUser` eagerly and sequentially, and an uncaught exception aborts
the whole program. The result pairs the outputs written before the abort
with the error, if any. -/
def runMain (fmt : String) (dm : Bool) :
    List UserData → List (String × List FormattedUnit) × Option PipelineError
  | [] => ([], none)
  | u :: rest =>
    match parseUserRun fmt dm u with
    | .error e => ([], some e)
    | .ok out =>
      ((u.name, out) :: (runMain fmt dm rest).1, (runMain fmt dm rest).2)

/-! Concrete inputs used by the scenario theorems. -/

/-- The round-trip scenario post of the spec. -/
def roundTripPost : RawRow :=
  { comments := ⟨[⟨"nice,\tpic"⟩]⟩
  , caption := ⟨none, some "hello\nworld"⟩
  , tags := some ["fashion", "ootd"]
  , urls := ["http://x/1"] }

/-- The canonical record of the spec's document-mode scenario. -/
def scenarioRecord : CanonicalRecord :=
  ⟨"nice pic", "hello world", "fashion ootd", "http://x/1"⟩

/-- A post whose caption exposes both the edges shape and the text shape. -/
def bothShapesPost : RawRow :=
  { comments := ⟨[]⟩
  , caption := ⟨some [⟨⟨"a"⟩⟩], some "b"⟩
  , tags := none
  , urls := ["u"] }

/-- A post whose caption exposes only the edges shape. -/
def edgesOnlyPost : RawRow :=
  { comments := ⟨[]⟩
  , caption := ⟨some [⟨⟨"a"⟩⟩, ⟨⟨"b"⟩⟩], none⟩
  , tags := none
  , urls := ["u2"] }

/-- A post whose caption exposes neither shape. -/
def noShapePost : RawRow :=
  { comments := ⟨[⟨"c"⟩]⟩
  , caption := ⟨none, none⟩
  , tags := none
  , urls := ["u"] }

/-- A well-formed post with an empty urls list. -/
def emptyUrlsPost : RawRow :=
  { comments := ⟨[⟨"hi"⟩]⟩
  , caption := ⟨none, some "cap"⟩
  , tags := none
  , urls := [] }

/-- A fully well-formed post. -/
def simplePost : RawRow :=
  { comments := ⟨[⟨"hi"⟩]⟩
  , caption := ⟨none, some "cap"⟩
  , tags := none
  , urls := ["u1"] }

/-- A user whose raw dataframe carries every needed column. -/
def goodUser : UserData :=
  ⟨"good", ["comments", "caption", "tags", "id", "urls"], [simplePost]⟩

/-- A user whose raw dataframe has no caption alias, so `select` raises
IndexError. -/
def badUser : UserData :=
  ⟨"bad", ["comments", "tags", "id", "urls"], []⟩

/-! Helper lemmas about the sanitizer. -/

lemma sanitize_data (s : String) :
    (sanitize s).data = s.data.map sanitizeChar := by
  have h : (sanitize s).data =
      ((s.data.map fun c => if c == '\n' then ' ' else c).map
        fun c => if c == '\t' then ' ' else c).map
        fun c => if c == ',' then ' ' else c := rfl
  rw [h, List.map_map, List.map_map]
  congr 1
  funext c
  simp only [Function.comp_apply]
  by_cases h1 : c = '\n'
  · subst h1; decide
  · by_cases h2 : c = '\t'
    · subst h2; decide
    · by_cases h3 : c = ','
      · subst h3; decide
      · simp [sanitizeChar, badChar, h1, h2, h3]

lemma sanitize_mk (s : String) : sanitize s = ⟨s.data.map sanitizeChar⟩ := by
  cases s with
  | mk l => exact congrArg String.mk (sanitize_data ⟨l⟩)

lemma badChar_sanitizeChar (c : Char) : badChar (sanitizeChar c) = false := by
  cases hb : badChar c with
  | false => simp [sanitizeChar, hb]
  | true =>
    simp only [sanitizeChar, hb, if_true]
    decide

lemma sanitizeChar_idem (c : Char) :
    sanitizeChar (sanitizeChar c) = sanitizeChar c := by
  show (if badChar (sanitizeChar c) then ' ' else sanitizeChar c) = sanitizeChar c
  rw [badChar_sanitizeChar c]
  simp

lemma map_sanitizeChar_getD (l : List Char) (i : Nat) :
    (l.map sanitizeChar).getD i 'x' = sanitizeChar (l.getD i 'x') := by
  induction l generalizing i with
  | nil => simp [List.getD]; decide
  | cons a t ih =>
    cases i with
    | zero => simp [List.getD]
    | succ n => simpa [List.getD] using ih n

/-! Helper lemma characterizing `mapRow` success. -/

lemma mapRow_ok_iff (row : RawRow) (rec : CanonicalRecord) :
    mapRow row = Except.ok rec ↔
      ∃ cap u us, resolveCaption row.caption = some cap ∧ row.urls = u :: us ∧
        rec = ⟨sanitize (joinComments row), sanitize cap,
               sanitize (joinTags row.tags), u⟩ := by
  unfold mapRow
  cases hcap : resolveCaption row.caption with
  | none => simp
  | some cap =>
    cases hu : row.urls with
    | nil => simp
    | cons u us => simp [eq_comm]

/-! Claim theorems. -/

/-- Claim C1, counterexample: the sanitizer is not the deletion the claim
describes — on the input "a,b" it yields "a b" while deleting the comma
would yield "ab". -/
theorem sanitize_not_deletion_cex :
    sanitize "a,b" = "a b" ∧ sanitizeSpecDelete "a,b" = "ab" ∧
    sanitize "a,b" ≠ sanitizeSpecDelete "a,b" :=
  ⟨rfl, rfl, by decide⟩

/-- Claim C1 (amended): the sanitized string contains no newline, tab or
comma, and it equals the input with every newline, tab and comma replaced
by one space, all other characters preserved in place. -/
theorem sanitize_replaces_delimiters (s : String) :
    ((sanitize s).data.all (fun c => !badChar c)) = true ∧
    (sanitize s).data = s.data.map sanitizeChar := by
  refine ⟨?_, sanitize_data s⟩
  rw [sanitize_data, List.all_map]
  rw [List.all_eq_true]
  intro c _
  simp [Function.comp_apply, badChar_sanitizeChar]

/-- Claim C2, counterexample: on the round-trip scenario post the comma
and the tab of "nice,\tpic" each become one space, so the comments field
is "nice  pic" (two spaces) and the tsv column-mode line differs from the
claimed "http://x/1\tnice pic\thello world\tfashion ootd". -/
theorem roundtrip_tsv_cex :
    (mapRow roundTripPost).map (fun r => formatRecord "tsv" false r) =
      Except.ok (some (FormattedUnit.line
        "http://x/1\tnice  pic\thello world\tfashion ootd")) ∧
    ("http://x/1\tnice  pic\thello world\tfashion ootd" : String) ≠
      "http://x/1\tnice pic\thello world\tfashion ootd" :=
  ⟨rfl, by decide⟩

/-- Claim C2 (amended): the round-trip scenario post normalizes to the
record with id "http://x/1", comments "nice  pic" (two spaces, one per
replaced character), caption "hello world", tags "fashion ootd", and its
tsv column-mode line is
"http://x/1\tnice  pic\thello world\tfashion ootd". -/
theorem roundtrip_tsv_actual :
    mapRow roundTripPost =
      Except.ok ⟨"nice  pic", "hello world", "fashion ootd", "http://x/1"⟩ ∧
    formatRecord "tsv" false
        ⟨"nice  pic", "hello world", "fashion ootd", "http://x/1"⟩ =
      some (.line "http://x/1\tnice  pic\thello world\tfashion ootd") :=
  ⟨rfl, rfl⟩

/-- Claim C3, counterexample: document-mode csv joins the non-id fields
with single spaces rather than concatenating them, so the scenario record
serializes to "http://x/1,nice pic hello world fashion ootd", not to the
claimed "http://x/1,nice pichello worldfashion ootd". -/
theorem docmode_csv_cex :
    formatRecord "csv" true scenarioRecord =
      some (.line "http://x/1,nice pic hello world fashion ootd") ∧
    ("http://x/1,nice pic hello world fashion ootd" : String) ≠
      "http://x/1,nice pichello worldfashion ootd" :=
  ⟨rfl, by decide⟩

/-- Claim C3 (amended): in document mode, csv and tsv emit the id, the
separator, then comments, caption and tags joined by single spaces; json
emits a row whose doc is the id and whose text concatenates all four
fields — the id included — in the pyspark row's alphabetical field order
caption, comments, id, tags. -/
theorem docmode_layout (r : CanonicalRecord) :
    formatRecord "csv" true r =
      some (.line (r.id ++ "," ++ " ".intercalate [r.comments, r.caption, r.tags])) ∧
    formatRecord "tsv" true r =
      some (.line (r.id ++ "\t" ++ " ".intercalate [r.comments, r.caption, r.tags])) ∧
    formatRecord "json" true r =
      some (.jsonDoc r.id (r.caption ++ r.comments ++ r.id ++ r.tags)) :=
  ⟨rfl, rfl, rfl⟩

/-- Claim C4, counterexample: on a post whose caption exposes both shapes
(edge node text "a", direct text "b") the record's caption is "b" — the
direct-text shape wins, not the edge-list shape the claim gives
precedence to. -/
theorem caption_precedence_cex :
    mapRow bothShapesPost = Except.ok ⟨"", "b", "", "u"⟩ ∧
    ("b" : String) ≠ "a" :=
  ⟨rfl, by decide⟩

/-- Claim C4 (amended): the direct-text shape takes precedence — whenever
the caption exposes a direct text, the record's caption is that text
sanitized; the edge-list shape is used only when no direct text is
exposed, and then the caption is the edges' node texts joined by single
spaces, sanitized. -/
theorem caption_text_overrides_edges (row : RawRow) :
    (∀ t, row.caption.text = some t →
      ∀ rec, mapRow row = Except.ok rec → rec.caption = sanitize t) ∧
    (row.caption.text = none → ∀ es, row.caption.edges = some es →
      ∀ rec, mapRow row = Except.ok rec →
        rec.caption = sanitize (" ".intercalate (es.map (fun e => e.node.text)))) := by
  constructor
  · intro t ht rec h
    rw [mapRow_ok_iff] at h
    obtain ⟨cap, u, us, hc, _, hrec⟩ := h
    have hcap : cap = t := by
      unfold resolveCaption at hc
      rw [ht] at hc
      exact (Option.some.injEq _ _ ▸ hc).symm
    subst hcap
    rw [hrec]
  · intro ht es hes rec h
    rw [mapRow_ok_iff] at h
    obtain ⟨cap, u, us, hc, _, hrec⟩ := h
    have hcap : cap = " ".intercalate (es.map (fun e => e.node.text)) := by
      unfold resolveCaption at hc
      rw [ht, hes] at hc
      exact (Option.some.injEq _ _ ▸ hc).symm
    subst hcap
    rw [hrec]

/-- Witness for claim C4's amended theorem, at a post exposing both
shapes (direct text wins) and at a post exposing only the edge-list
shape. -/
theorem caption_text_overrides_edges_witness :
    (⟨"", "b", "", "u"⟩ : CanonicalRecord).caption = sanitize "b" ∧
    (⟨"", "a b", "", "u2"⟩ : CanonicalRecord).caption =
      sanitize (" ".intercalate
        (([⟨⟨"a"⟩⟩, ⟨⟨"b"⟩⟩] : List CaptionEdge).map (fun e => e.node.text))) :=
  ⟨(caption_text_overrides_edges bothShapesPost).1 "b" rfl ⟨"", "b", "", "u"⟩ rfl,
   (caption_text_overrides_edges edgesOnlyPost).2 rfl [⟨⟨"a"⟩⟩, ⟨⟨"b"⟩⟩] rfl
     ⟨"", "a b", "", "u2"⟩ rfl⟩

/-- Claim C5: on a post whose caption exposes neither shape, `mapRow`
raises the UnboundLocalError of the never-assigned `textCaptions`
variable — an untyped slip, not the typed CaptionShapeError the claim
requires — and emits no record. -/
theorem caption_neither_shape_unbound :
    mapRow noShapePost = Except.error PipelineError.captionUnboundLocal := rfl

/-- Claim C6, counterexample: with the failing user first, the run aborts
before the good user is processed, so the good user's output — which a
run containing only that user does produce — is never written. -/
theorem schema_error_aborts_run_cex :
    runMain "tsv" false [badUser, goodUser] =
      ([], some PipelineError.schemaIndexError) ∧
    runMain "tsv" false [goodUser] =
      ([("good", [FormattedUnit.line "u1\thi\tcap\t"])], none) :=
  ⟨rfl, rfl⟩

/-- Claim C6 (amended): a per-user error aborts the whole run — users
before the failing one keep their written outputs, and the failing user
and every user after it produce no output. -/
theorem schema_error_abort_behavior (fmt : String) (dm : Bool)
    (pre post : List UserData) (u : UserData) (e : PipelineError)
    (outs : List (String × List FormattedUnit))
    (h1 : runMain fmt dm pre = (outs, none))
    (h2 : parseUserRun fmt dm u = Except.error e) :
    runMain fmt dm (pre ++ u :: post) = (outs, some e) := by
  revert h1
  induction pre generalizing outs with
  | nil =>
    intro h1
    have houts : outs = [] := by
      simpa [runMain] using congrArg Prod.fst h1.symm
    subst houts
    simp [runMain, h2]
  | cons v vs ih =>
    intro h1
    rw [List.cons_append]
    simp only [runMain] at h1 ⊢
    cases hv : parseUserRun fmt dm v with
    | error e2 => rw [hv] at h1; simp at h1
    | ok o =>
      rw [hv] at h1
      have hsnd : (runMain fmt dm vs).2 = none := by
        simpa using congrArg Prod.snd h1
      have hfst : outs = (v.name, o) :: (runMain fmt dm vs).1 := by
        simpa using (congrArg Prod.fst h1).symm
      subst hfst
      rw [ih ((runMain fmt dm vs).1) (by rw [← hsnd])]

/-- Witness for claim C6's amended theorem: the good user first, then the
failing user — the good user's output survives and the run ends with the
schema error. -/
theorem schema_error_abort_behavior_witness :
    runMain "tsv" false ([goodUser] ++ badUser :: []) =
      ([("good", [FormattedUnit.line "u1\thi\tcap\t"])],
       some PipelineError.schemaIndexError) :=
  schema_error_abort_behavior "tsv" false [goodUser] [] badUser
    PipelineError.schemaIndexError
    [("good", [FormattedUnit.line "u1\thi\tcap\t"])] rfl rfl

/-- Claim C7: sanitization preserves the length of the input, keeps every
character that is not a newline, tab or comma, and puts one space at
every position that held one of those three characters. -/
theorem sanitize_positionwise (s : String) :
    (sanitize s).length = s.length ∧
    ∀ i : Nat, (sanitize s).data.getD i 'x' =
      (if badChar (s.data.getD i 'x') then ' ' else s.data.getD i 'x') := by
  constructor
  · show (sanitize s).data.length = s.data.length
    rw [sanitize_data, List.length_map]
  · intro i
    rw [sanitize_data, map_sanitizeChar_getD]
    rfl

/-- Claim C8: the sanitizer is idempotent. -/
theorem sanitize_idempotent (s : String) :
    sanitize (sanitize s) = sanitize s := by
  rw [sanitize_mk (sanitize s), sanitize_data, List.map_map,
    show sanitizeChar ∘ sanitizeChar = sanitizeChar from funext sanitizeChar_idem,
    ← sanitize_mk]

/-- Claim C9: whenever `mapRow` returns a record, the record's id is the
first element of the post's urls list; on an empty urls list `mapRow`
never returns a record (it raises). -/
theorem id_from_urls_head (row : RawRow) :
    (∀ rec, mapRow row = Except.ok rec → row.urls.head? = some rec.id) ∧
    (row.urls = [] → ∀ rec, mapRow row ≠ Except.ok rec) := by
  constructor
  · intro rec h
    rw [mapRow_ok_iff] at h
    obtain ⟨cap, u, us, _, hu, hrec⟩ := h
    rw [hu, hrec]
    rfl
  · intro hnil rec h
    rw [mapRow_ok_iff] at h
    obtain ⟨cap, u, us, _, hu, _⟩ := h
    rw [hnil] at hu
    exact List.noConfusion hu

/-- Witness for claim C9, at a concrete successful post and a concrete
empty-urls post. -/
theorem id_from_urls_head_witness :
    simplePost.urls.head? =
      some (⟨"hi", "cap", "", "u1"⟩ : CanonicalRecord).id ∧
    mapRow emptyUrlsPost ≠ Except.ok ⟨"hi", "cap", "", "u1"⟩ :=
  ⟨(id_from_urls_head simplePost).1 ⟨"hi", "cap", "", "u1"⟩ rfl,
   (id_from_urls_head emptyUrlsPost).2 rfl ⟨"hi", "cap", "", "u1"⟩⟩

/-- Claim C10: for each of the three legal format tags and either
document-mode value, the formatter yields a defined serialized unit for
every canonical record. -/
theorem formatRecord_total (fmt : String)
    (h : fmt = "csv" ∨ fmt = "tsv" ∨ fmt = "json") (dm : Bool)
    (row : CanonicalRecord) :
    ∃ u, formatRecord fmt dm row = some u := by
  rcases h with rfl | rfl | rfl <;> cases dm <;> exact ⟨_, rfl⟩

/-- Witness for claim C10, at the json tag in document mode. -/
theorem formatRecord_total_witness :
    ∃ u, formatRecord "json" true ⟨"a", "b", "c", "d"⟩ = some u :=
  formatRecord_total "json" (Or.inr (Or.inr rfl)) true ⟨"a", "b", "c", "d"⟩
